import Mathlib

/-!
Shallow embedding of the Photo-Organizer pipeline (src/main.py).

Pure functions of the source are translated directly; the per-file pipeline
(`process_file`) is modelled by explicit state passing over an `OrgState`
record that carries the run-scoped duplicate set (`processed_files`), the
geocode cache (`location_cache` plus a log of issued external requests) and
the set of already-written destination files.  File-system reads (file
bytes, EXIF tag directory, video container metadata, filesystem creation
time) are modelled as fields of a `PFile` record holding what the
corresponding reader returns for that file; the MD5 function and the
reverse-geocoding service are abstract parameters of an `Env` record.
Python floats are modelled as rationals.
-/

namespace PhotoOrganizer

/-- A parsed calendar timestamp, the result of a successful
`datetime.strptime` call in `get_date_taken`, or a filesystem creation
time obtained by `get_file_creation_date`. -/
structure PyDateTime where
  year : Nat
  month : Nat
  day : Nat
  hour : Nat
  minute : Nat
  second : Nat
deriving DecidableEq, Repr

/-- Numeric value of a decimal digit character. -/
def digitVal (c : Char) : Nat := c.toNat - 48

/-- Value of a list of decimal digit characters (most significant first). -/
def runVal (cs : List Char) : Nat := cs.foldl (fun a c => a * 10 + digitVal c) 0

/-- Gregorian leap-year test, as used by the day-of-month
validation in `datetime`. -/
def isLeap (y : Nat) : Bool := (y % 4 == 0 && y % 100 != 0) || y % 400 == 0

/-- Number of days of month `m` in year `y` (the `datetime` constructor
rejects a day beyond this). -/
def daysInMonth (y m : Nat) : Nat :=
  if m = 2 then (if isLeap y then 29 else 28)
  else if m = 4 ∨ m = 6 ∨ m = 9 ∨ m = 11 then 30 else 31

/-- Consume one format separator from the input.  A space in a
`strptime` format matches a run of one or more whitespace characters;
any other separator matches itself exactly once. -/
def takeSep (sep : Char) (cs : List Char) : Option (List Char) :=
  if sep = ' ' then
    match cs with
    | c :: rest => if c.isWhitespace then some (rest.dropWhile Char.isWhitespace) else none
    | [] => none
  else
    match cs with
    | c :: rest => if c = sep then some rest else none
    | [] => none

/-- Range and length checks performed by the CPython `_strptime` regex for
the directives `%Y %m %d %H %M %S` together with the validation in the
`datetime` constructor.  `%Y` is exactly four digits; the other fields
are one or two digits within their calendar ranges; `datetime` rejects
year 0 and leap seconds. -/
def validFields (ys ms ds hs mins ss : List Char) : Bool :=
  ys.length == 4 &&
  (1 ≤ ms.length && ms.length ≤ 2) && (1 ≤ ds.length && ds.length ≤ 2) &&
  (1 ≤ hs.length && hs.length ≤ 2) && (1 ≤ mins.length && mins.length ≤ 2) &&
  (1 ≤ ss.length && ss.length ≤ 2) &&
  (1 ≤ runVal ys) &&
  (1 ≤ runVal ms && runVal ms ≤ 12) &&
  (1 ≤ runVal ds && runVal ds ≤ daysInMonth (runVal ys) (runVal ms)) &&
  (runVal hs ≤ 23) && (runVal mins ≤ 59) && (runVal ss ≤ 59)

/-- Model of `datetime.strptime(s, fmt)` for the three format shapes used
by the source, parameterised by the date separator `dsep` and the
date/time separator `tsep`:
the format `%Y:%m:%d %H:%M:%S` uses a colon as date separator and a
space as date/time separator, `%Y-%m-%d %H:%M:%S` a dash and a space,
and `%Y-%m-%dT%H:%M:%S` a dash and the letter T.
Returns `none` exactly when `strptime` raises. -/
def parseDateTime (dsep tsep : Char) (s : String) : Option PyDateTime := do
  let cs := s.data
  let (ys, r1) := cs.span Char.isDigit
  let r1 ← takeSep dsep r1
  let (ms, r2) := r1.span Char.isDigit
  let r2 ← takeSep dsep r2
  let (ds, r3) := r2.span Char.isDigit
  let r3 ← takeSep tsep r3
  let (hs, r4) := r3.span Char.isDigit
  let r4 ← takeSep ':' r4
  let (mins, r5) := r4.span Char.isDigit
  let r5 ← takeSep ':' r5
  let (ss, r6) := r5.span Char.isDigit
  if r6 = [] ∧ validFields ys ms ds hs mins ss then
    some ⟨runVal ys, runVal ms, runVal ds, runVal hs, runVal mins, runVal ss⟩
  else none

/-- First-success-wins combination of two fallible attempts, as realised
in the source by a `for` loop whose body `return`s on the first parse that
does not raise (and by the Python `or` fallback chains). -/
def orO {α : Type} : Option α → Option α → Option α
  | some a, _ => some a
  | none, b => b

/-! ### EXIF tag maps and GPS values -/

/-- A raw Python value stored under a GPS tag.  `num q` is a value on
which `float()` succeeds with result `q` (ints, floats, EXIF rationals
with nonzero denominator); `badNum` is a scalar on which `float()` raises
(`ValueError`, `TypeError` or, for a rational with zero denominator,
`ZeroDivisionError`); `str s` is a string (in the data produced by
`get_exif_data` strings appear only as the hemisphere reference values);
`seq xs` is a list or tuple, on which `float()` raises `TypeError`. -/
inductive PyVal where
  | num (q : ℚ)
  | badNum
  | str (s : String)
  | seq (xs : List PyVal)

/-- Python truthiness of a raw value (`if lat_data:`): zero numbers,
empty strings and empty sequences are falsy; everything else is truthy. -/
def PyVal.truthy : PyVal → Bool
  | .num q => if q = 0 then false else true
  | .badNum => true
  | .str s => s != ""
  | .seq xs => !xs.isEmpty

/-- Python `value == "t"` for a raw value against a string literal. -/
def PyVal.isStrEq (v : PyVal) (t : String) : Bool :=
  match v with
  | .str s => s == t
  | _ => false

/-- Result of Python `float(value)` on a scalar raw value: `none` when it
raises. -/
def pyFloat : PyVal → Option ℚ
  | .num q => some q
  | _ => none

/-- A value stored in the EXIF tag map produced by `get_exif_data`:
a string (the timestamp tags), the nested GPS sub-map stored under
`"GPSInfo"`, or some other non-string value (on which `strptime`
raises `TypeError`). -/
inductive TagVal where
  | str (s : String)
  | gps (g : List (String × PyVal))
  | other

/-- The normalized tag map returned by `get_exif_data` (empty on any
open/parse failure), modelled as an association list with distinct keys. -/
abbrev ExifData := List (String × TagVal)

/-- The nested GPS sub-map stored under the `"GPSInfo"` tag. -/
abbrev GpsInfo := List (String × PyVal)

/-- Python `dict.get(key)` on an association list. -/
def dictGet {α : Type} : List (String × α) → String → Option α
  | [], _ => none
  | (k, v) :: rest, key => if k = key then some v else dictGet rest key

/-- Model of the nested `convert_to_degrees` helper of `get_gps_info`:
a list or tuple of length at least 3 is folded as
`d + m/60 + s/3600` from its first three members; any other value is
passed to `float()`; any raised `ValueError`/`TypeError`/
`ZeroDivisionError` degrades the component to `0.0`. -/
def convert_to_degrees (v : PyVal) : ℚ :=
  match v with
  | .seq xs =>
    if 3 ≤ xs.length then
      match pyFloat (xs.getD 0 .badNum), pyFloat (xs.getD 1 .badNum), pyFloat (xs.getD 2 .badNum) with
      | some d, some m, some s => d + m / 60 + s / 3600
      | _, _, _ => 0
    else 0
  | w => (pyFloat w).getD 0

/-- Model of `get_gps_info(exif_data)`: reads the `"GPSInfo"` sub-map
(`None` when the tag is absent, its value falsy, or not a map), requires
both `GPSLatitude` and `GPSLongitude` to be present and truthy, converts
each with `convert_to_degrees`, and negates on hemisphere references
S / W (defaults N / E).  Returns `none` exactly when the
source returns `(None, None)`. -/
def get_gps_info (exif : ExifData) : Option (ℚ × ℚ) :=
  match dictGet exif "GPSInfo" with
  | some (TagVal.gps g) =>
    if g.isEmpty then none
    else
      match dictGet g "GPSLatitude" with
      | some latv =>
        if latv.truthy then
          let lat0 := convert_to_degrees latv
          let lat := if ((dictGet g "GPSLatitudeRef").getD (PyVal.str "N")).isStrEq "S" then -lat0 else lat0
          match dictGet g "GPSLongitude" with
          | some lonv =>
            if lonv.truthy then
              let lon0 := convert_to_degrees lonv
              let lon := if ((dictGet g "GPSLongitudeRef").getD (PyVal.str "E")).isStrEq "W" then -lon0 else lon0
              some (lat, lon)
            else none
          | none => none
        else none
      | none => none
  | some _ => none
  | none => none

/-! ### Date resolution (`get_date_taken`) -/

/-- One iteration of the EXIF date loop: look the tag up in the map and
try `strptime` with format `%Y:%m:%d %H:%M:%S`; `none` when the tag is
missing, its value is not a string, or parsing raises. -/
def tryTag (exif : ExifData) (tag : String) : Option PyDateTime :=
  match dictGet exif tag with
  | some (TagVal.str s) => parseDateTime ':' ' ' s
  | _ => none

/-- Characters of a string up to (excluding) the first dot, the model of
the split that drops fractional seconds. -/
def takeUntilDot : List Char → List Char
  | [] => []
  | c :: rest => if c = '.' then [] else c :: takeUntilDot rest

/-- Model of taking the part of the date string before the first dot. -/
def stripFrac (s : String) : String := ⟨takeUntilDot s.data⟩

/-- Resolution of the video-container creation-date string: after
stripping a fractional suffix, the formats `%Y-%m-%d %H:%M:%S`,
`%Y:%m:%d %H:%M:%S`, `%Y-%m-%dT%H:%M:%S` are tried in turn. -/
def videoDate (video : Option String) : Option PyDateTime :=
  match video with
  | some ds =>
    let d0 := stripFrac ds
    orO (parseDateTime '-' ' ' d0) (orO (parseDateTime ':' ' ' d0) (parseDateTime '-' 'T' d0))
  | none => none

/-- Model of `get_date_taken(file_path, exif_data, video_data)`.
`fsDate` is what `get_file_creation_date(file_path)` returns (`none` when
`os.path.getctime` raises); `video` is the `creation_date` entry of the
video metadata dict (`none` when the dict is empty or lacks the key,
making the truthiness-and-membership guard on `video_data` false).
The EXIF tags are tried in the literal order of the source,
`DateTimeOriginal`, then `DateTime`, then `DateTimeDigitized`, each parse
failure silently skipped. -/
def get_date_taken (fsDate : Option PyDateTime) (exif : ExifData) (video : Option String) :
    Option PyDateTime :=
  let fromExif :=
    if exif.isEmpty then none
    else orO (tryTag exif "DateTimeOriginal") (orO (tryTag exif "DateTime") (tryTag exif "DateTimeDigitized"))
  match fromExif with
  | some d => some d
  | none =>
    match videoDate video with
    | some d => some d
    | none => fsDate

/-! ### Video metadata extraction (`get_video_metadata`) -/

/-- Whether `needle` is a prefix of `hay`. -/
def isPrefixOfL : List Char → List Char → Bool
  | [], _ => true
  | _ :: _, [] => false
  | c :: cs, d :: ds => c == d && isPrefixOfL cs ds

/-- Whether `needle` occurs as a contiguous substring of `hay`
(Python `needle in hay`). -/
def containsSub (hay needle : List Char) : Bool :=
  match hay with
  | [] => needle.isEmpty
  | _ :: rest => isPrefixOfL needle hay || containsSub rest needle

/-- Python `sub in s` for strings. -/
def containsStr (s sub : String) : Bool := containsSub s.data sub.data

/-- Characters after the first occurrence of `": "`, or `none` when the
separator does not occur. -/
def splitAfterColon : List Char → Option (List Char)
  | [] => none
  | c :: rest =>
    if isPrefixOfL [':', ' '] (c :: rest) then some (rest.drop 1)
    else splitAfterColon rest

/-- Model of splitting the line at the first colon-space separator and
taking the second part; `none` when the separator is absent (the index
access raises `IndexError`, caught by the bare `except`). -/
def splitValue (line : String) : Option String := (splitAfterColon line.data).map (⟨·⟩)

/-- The scan of `metadata.exportPlaintext()` in `get_video_metadata`:
for every line containing the substrings scanned for, the dict entry
under `creation_date` is overwritten with the part after the first
colon-space separator (lines that fail to split are skipped), so the accumulator
holds the value of the last matching splittable line. -/
def scanDateLines (lines : List String) : Option String :=
  lines.foldl
    (fun acc line =>
      if containsStr line "Creation date" || containsStr line "Date" then
        match splitValue line with
        | some v => some v
        | none => acc
      else acc)
    none

/-- Model of `get_video_metadata(video_path)`: yields the captured
`creation_date` string.  `hachoir` is the `HACHOIR_SUPPORT` flag;
`meta` is the list of exported plaintext metadata lines, `none` when
`createParser` or `extractMetadata` returns a falsy value or raises. -/
def get_video_metadata (hachoir : Bool) (meta : Option (List String)) : Option String :=
  if hachoir then
    match meta with
    | some lines => scanDateLines lines
    | none => none
  else none

/-! ### Location resolution (`get_location_name`) -/

/-- The address components the source reads from the reverse-geocoding
response (the address sub-dict of the raw response, empty by default);
each field is `none` when
the key is missing. -/
structure Address where
  city : Option String
  town : Option String
  village : Option String
  suburb : Option String
  neighbourhood : Option String
  county : Option String
  state : Option String
  country : Option String

/-- Outcome of one `geolocator.reverse` call: a truthy location whose
address components are `addr`; a falsy result (no location found); or a
raised exception (network/service failure). -/
inductive GeoResult where
  | ok (addr : Address)
  | okNone
  | err

/-- Python truthiness of an optional string. -/
def truthyS : Option String → Bool
  | some s => s != ""
  | none => false

/-- Python `a or b` on optional strings. -/
def pyOr (a b : Option String) : Option String := if truthyS a then a else b

/-- Model of `x.replace(" ", "_").replace(",", "") if x else "Unknown"`. -/
def cleanComp (v : Option String) : String :=
  match v with
  | some s => if s = "" then "Unknown" else (s.replace " " "_").replace "," ""
  | none => "Unknown"

/-- Composition of the place name from the address components: the first
truthy city-like field in priority order combined with the country field,
each cleaned or replaced by `"Unknown"`. -/
def composeName (addr : Address) : String :=
  let city := pyOr addr.city (pyOr addr.town (pyOr addr.village (pyOr addr.suburb
    (pyOr addr.neighbourhood (pyOr addr.county addr.state)))))
  cleanComp city ++ "_" ++ cleanComp addr.country

/-- Round-half-to-even on rationals, the model of the Python `round` on the
scaled coordinate. -/
def roundHalfEven (q : ℚ) : ℤ :=
  let n := ⌊q⌋
  let r := q - (n : ℚ)
  if r < 1 / 2 then n
  else if 1 / 2 < r then n + 1
  else if n % 2 = 0 then n else n + 1

/-- Model of `round(x, 3)`. -/
def round3 (q : ℚ) : ℚ := (roundHalfEven (q * 1000) : ℚ) / 1000

/-- The geocode cache key `(round(lat, 3), round(lon, 3))`. -/
def cacheKey (lat lon : ℚ) : ℚ × ℚ := (round3 lat, round3 lon)

/-- The run-scoped state of the location resolver: the `location_cache`
dict and a log of the coordinates for which an external
`geolocator.reverse` request was actually issued. -/
structure GeoState where
  cache : List ((ℚ × ℚ) × String)
  extCalls : List (ℚ × ℚ)

/-- The state at the start of a run: empty cache, no requests issued. -/
def initGeo : GeoState := ⟨[], []⟩

/-- Python `cache_key in location_cache` / `location_cache[cache_key]`. -/
def cacheLookup : List ((ℚ × ℚ) × String) → (ℚ × ℚ) → Option String
  | [], _ => none
  | (k, v) :: rest, key => if k = key then some v else cacheLookup rest key

/-- Model of `get_location_name(lat, lon)`.  Falsy (zero) coordinates
short-circuit to `"Unknown_Location"` with no cache access and no
external call.  Otherwise a cache hit returns the cached name; on a miss
one external request is issued (recorded in `extCalls`) and the composed
name — or, when the service returns a falsy location or raises, the
sentinel `"Unknown_Location"` — is stored under the rounded key. -/
def get_location_name (geocoder : ℚ × ℚ → GeoResult) (lat lon : ℚ) (st : GeoState) :
    String × GeoState :=
  if lat = 0 ∨ lon = 0 then ("Unknown_Location", st)
  else
    let key := cacheKey lat lon
    match cacheLookup st.cache key with
    | some name => (name, st)
    | none =>
      let calls := st.extCalls ++ [(lat, lon)]
      match geocoder (lat, lon) with
      | GeoResult.ok addr =>
        let name := composeName addr
        (name, ⟨(key, name) :: st.cache, calls⟩)
      | GeoResult.okNone => ("Unknown_Location", ⟨(key, "Unknown_Location") :: st.cache, calls⟩)
      | GeoResult.err => ("Unknown_Location", ⟨(key, "Unknown_Location") :: st.cache, calls⟩)

/-- Sequence of location lookups within one run (state threaded through). -/
def runLookups (geocoder : ℚ × ℚ → GeoResult) (reqs : List (ℚ × ℚ)) (st : GeoState) : GeoState :=
  match reqs with
  | [] => st
  | c :: rest => runLookups geocoder rest (get_location_name geocoder c.1 c.2 st).2

/-- Number of issued external requests whose rounded key is `k`. -/
def countKey (calls : List (ℚ × ℚ)) (k : ℚ × ℚ) : Nat :=
  List.countP (fun c => decide (cacheKey c.1 c.2 = k)) calls

/-! ### Destination naming (the collision loop of `process_file`) -/

/-- Decimal rendering of a natural number (the model of Python `str(n)`),
computed with structural fuel so that it evaluates by kernel reduction. -/
def natDecAux : Nat → Nat → List Char
  | 0, _ => []
  | fuel + 1, n => if n < 10 then [Nat.digitChar n] else natDecAux fuel (n / 10) ++ [Nat.digitChar (n % 10)]

/-- Decimal rendering of a natural number as a string. -/
def natDec (n : Nat) : String := ⟨natDecAux (n + 1) n⟩

/-- The candidate name `f"{stem}_{counter}{suffix}"`. -/
def collName (stem suffix : String) (k : Nat) : String := stem ++ "_" ++ natDec k ++ suffix

/-- The `while dest_file.exists()` loop of `process_file`, with explicit
fuel (the loop terminates because the destination directory holds
finitely many files; `L.length + 1` fuel always suffices, see below). -/
def destLoop (taken : String → Bool) (stem suffix : String) : Nat → Nat → String
  | 0, k => collName stem suffix k
  | fuel + 1, k =>
    let cand := collName stem suffix k
    if taken cand then destLoop taken stem suffix fuel (k + 1) else cand

/-- Target-filename selection of `process_file`: the bare source filename
if no file of that name exists in the destination directory, otherwise
the first free `f"{stem}_{counter}{suffix}"` with `counter` counting up
from 1. -/
def pickDest (taken : String → Bool) (name stem suffix : String) (fuel : Nat) : String :=
  if taken name then destLoop taken stem suffix fuel 1 else name

/-! ### The per-file pipeline (`process_file`) -/

/-- Supported photo extensions (`PHOTO_EXTENSIONS`). -/
def PHOTO_EXTENSIONS : List String := [".jpg", ".jpeg", ".png", ".tiff", ".tif", ".bmp", ".gif"]

/-- Supported video extensions (`VIDEO_EXTENSIONS`). -/
def VIDEO_EXTENSIONS : List String :=
  [".mp4", ".mov", ".avi", ".mkv", ".wmv", ".flv", ".webm", ".m4v", ".3gp"]

/-- iPhone-specific extensions (`IPHONE_EXTENSIONS`). -/
def IPHONE_EXTENSIONS : List String := [".heic", ".heif"]

/-- ASCII lowercasing, the model of Python `str.lower()` on extensions. -/
def lowerStr (s : String) : String := ⟨s.data.map Char.toLower⟩

/-- English month name, the result of `strftime` with directive `%B`. -/
def monthName : Nat → String
  | 1 => "January"
  | 2 => "February"
  | 3 => "March"
  | 4 => "April"
  | 5 => "May"
  | 6 => "June"
  | 7 => "July"
  | 8 => "August"
  | 9 => "September"
  | 10 => "October"
  | 11 => "November"
  | 12 => "December"
  | _ => ""

/-- Two-digit zero-padded decimal, the model of `f"{month:02d}"`. -/
def pad2 (n : Nat) : String := if n < 10 then "0" ++ natDec n else natDec n

/-- A destination file, as the components
`(year, month, location, filename)` of its path below the output root. -/
abbrev DestPath := String × String × String × String

/-- A media file together with what the metadata readers return for it:
`content` is its byte content, `readable` tells whether the chunked read
in `calculate_file_hash` succeeds, `exif` is the tag map
`get_exif_data` would return (empty on failure), `videoMeta` the
exported metadata lines the hachoir parser would return (`none` when the
parser or extractor fails), and `fsDate` the filesystem creation time
(`none` when `os.path.getctime` raises).  `Path(file_path).name` is
`stem ++ suffix`. -/
structure PFile where
  stem : String
  suffix : String
  content : List Nat
  readable : Bool
  exif : ExifData
  videoMeta : Option (List String)
  fsDate : Option PyDateTime

/-- `Path(file_path).name`. -/
def PFile.name (f : PFile) : String := f.stem ++ f.suffix

/-- The process-wide collaborators: the MD5 digest function, the
reverse-geocoding service, and the `HACHOIR_SUPPORT` flag. -/
structure Env where
  md5 : List Nat → String
  geocoder : ℚ × ℚ → GeoResult
  hachoir : Bool

/-- The run-scoped mutable state of the pipeline: the `processed_files`
digest set, the geocode cache state, and the destination files written
so far (which is what the `dest_file.exists()` checks observe). -/
structure OrgState where
  processed : List String
  geo : GeoState
  existing : List DestPath

/-- The state at the start of a run. -/
def initState : OrgState := ⟨[], initGeo, []⟩

/-- Model of `calculate_file_hash`: the MD5 digest of the file content,
or `None` when reading raises. -/
def calculate_file_hash (env : Env) (f : PFile) : Option String :=
  if f.readable then some (env.md5 f.content) else none

/-- `Path(file_path).suffix.lower()`. -/
def fileExt (f : PFile) : String := lowerStr f.suffix

/-- The `exif_data` dict of `process_file`: populated only for photo and
iPhone extensions. -/
def effectiveExif (f : PFile) : ExifData :=
  if fileExt f ∈ PHOTO_EXTENSIONS ∨ fileExt f ∈ IPHONE_EXTENSIONS then f.exif else []

/-- The `video_data` dict of `process_file`: populated only for video
extensions. -/
def effectiveVideo (env : Env) (f : PFile) : Option String :=
  if fileExt f ∈ VIDEO_EXTENSIONS then get_video_metadata env.hachoir f.videoMeta else none

/-- The decoded coordinate in `process_file`:
`get_gps_info(exif_data) if exif_data else (None, None)`. -/
def effectiveGps (f : PFile) : Option (ℚ × ℚ) :=
  let e := effectiveExif f
  if e.isEmpty then none else get_gps_info e

/-- The metadata/path-building/copy part of `process_file` (everything
after the duplicate gate).  Returns the `True` result flag, the
destination file written, and the updated run state.  Both copy and move
modes materialise the destination file, which is appended to
`existing`. -/
def processBody (env : Env) (f : PFile) (st : OrgState) : Bool × Option DestPath × OrgState :=
  let date := get_date_taken f.fsDate (effectiveExif f) (effectiveVideo env f)
  let year := match date with
    | some d => natDec d.year
    | none => "Unknown_Year"
  let month := match date with
    | some d => pad2 d.month ++ "-" ++ monthName d.month
    | none => "Unknown_Month"
  let lg := match effectiveGps f with
    | some c =>
      if ¬c.1 = 0 ∧ ¬c.2 = 0 then get_location_name env.geocoder c.1 c.2 st.geo
      else ("Unknown_Location", st.geo)
    | none => ("Unknown_Location", st.geo)
  let location := lg.1
  let geo1 := lg.2
  let taken : String → Bool := fun s => decide ((year, month, location, s) ∈ st.existing)
  let fname := pickDest taken (PFile.name f) f.stem f.suffix (st.existing.length + 1)
  let dest : DestPath := (year, month, location, fname)
  (true, some dest, ⟨st.processed, geo1, dest :: st.existing⟩)

/-- Model of `process_file(file_path, output_dir, move_files)`: the
duplicate gate (`False`, nothing written, state untouched on a seen
digest; a fresh truthy digest is recorded; a failed digest bypasses the
gate) followed by `processBody`. -/
def process_file (env : Env) (move : Bool) (f : PFile) (st : OrgState) :
    Bool × Option DestPath × OrgState :=
  match calculate_file_hash env f with
  | some h =>
    if h ≠ "" then
      if h ∈ st.processed then (false, none, st)
      else processBody env f ⟨h :: st.processed, st.geo, st.existing⟩
    else processBody env f st
  | none => processBody env f st

/-- The per-file loop of `organize_media`: processes files in order,
threading the run state and collecting the destination files written. -/
def runAll (env : Env) (move : Bool) (files : List PFile) (st : OrgState) :
    List DestPath × OrgState :=
  match files with
  | [] => ([], st)
  | f :: rest =>
    let r := process_file env move f st
    let rr := runAll env move rest r.2.2
    (r.2.1.toList ++ rr.1, rr.2)

/-! ### Helper lemmas about the pipeline body -/

/-- `processBody` always reports success. -/
theorem processBody_fst (env : Env) (f : PFile) (st : OrgState) :
    (processBody env f st).1 = true := rfl

/-- `processBody` always writes exactly one destination file. -/
theorem processBody_copy_length (env : Env) (f : PFile) (st : OrgState) :
    (processBody env f st).2.1.toList.length = 1 := rfl

/-- `processBody` never touches the digest set. -/
theorem processBody_processed (env : Env) (f : PFile) (st : OrgState) :
    (processBody env f st).2.2.processed = st.processed := rfl

/-- A successful tag parse implies the tag map is nonempty (so the
`if exif_data:` truthiness gate passes). -/
theorem tryTag_isEmpty_false (exif : ExifData) (tag : String) (d : PyDateTime)
    (h : tryTag exif tag = some d) : exif.isEmpty = false := by
  cases exif with
  | nil => simp [tryTag, dictGet] at h
  | cons a l => rfl

/-! ### C9 -/

/-- C9: when content-hash computation fails (`calculate_file_hash`
returns `None`), `process_file` neither skips the file as a duplicate nor
records a digest: it runs the rest of the pipeline unchanged, reports
success, writes a destination file, and leaves the digest set as it
was. -/
theorem c9_hash_failure (env : Env) (move : Bool) (f : PFile) (st : OrgState)
    (h : f.readable = false) :
    process_file env move f st = processBody env f st ∧
    (process_file env move f st).1 = true ∧
    ((process_file env move f st).2.1).isSome = true ∧
    (process_file env move f st).2.2.processed = st.processed := by
  have hh : calculate_file_hash env f = none := by simp [calculate_file_hash, h]
  have h1 : process_file env move f st = processBody env f st := by
    simp [process_file, hh]
  exact ⟨h1, by rw [h1]; rfl, by rw [h1]; rfl, by rw [h1]; rfl⟩

/-- Witness for C9 at a concrete unreadable file. -/
theorem c9_hash_failure_witness :
    process_file ⟨fun _ => "h", fun _ => GeoResult.err, false⟩ false
        ⟨"x", ".jpg", [], false, [], none, none⟩ initState =
      processBody ⟨fun _ => "h", fun _ => GeoResult.err, false⟩
        ⟨"x", ".jpg", [], false, [], none, none⟩ initState :=
  (c9_hash_failure ⟨fun _ => "h", fun _ => GeoResult.err, false⟩ false
    ⟨"x", ".jpg", [], false, [], none, none⟩ initState rfl).1

/-! ### C2 -/

/-- C2 counterexample: a tag map carrying both the digitized and the
generic timestamp tags with differing parseable values resolves to the
generic (`DateTime`) value, not the digitized one, because the source
tries `DateTimeOriginal`, then `DateTime`, then `DateTimeDigitized` in
that order. -/
theorem c2_counterexample :
    parseDateTime ':' ' ' "2001:01:01 00:00:00" = some ⟨2001, 1, 1, 0, 0, 0⟩ ∧
    parseDateTime ':' ' ' "2002:02:02 00:00:00" = some ⟨2002, 2, 2, 0, 0, 0⟩ ∧
    get_date_taken none
        [("DateTime", TagVal.str "2001:01:01 00:00:00"),
         ("DateTimeDigitized", TagVal.str "2002:02:02 00:00:00")] none =
      some ⟨2001, 1, 1, 0, 0, 0⟩ ∧
    (⟨2001, 1, 1, 0, 0, 0⟩ : PyDateTime) ≠ ⟨2002, 2, 2, 0, 0, 0⟩ := by
  refine ⟨by decide, by decide, by decide, by decide⟩

/-- C2 (amended): date resolution tries the original-capture tag first,
then the generic tag, then the digitized tag (each parsed with the fixed
format, failures silently skipped); the original-capture tag beats the
generic tag, and the generic tag beats the digitized tag. -/
theorem c2_date_order (exif : ExifData) (fsDate : Option PyDateTime) (video : Option String) :
    (∀ d, tryTag exif "DateTimeOriginal" = some d →
      get_date_taken fsDate exif video = some d) ∧
    (tryTag exif "DateTimeOriginal" = none →
      ∀ d, tryTag exif "DateTime" = some d →
        get_date_taken fsDate exif video = some d) ∧
    (tryTag exif "DateTimeOriginal" = none → tryTag exif "DateTime" = none →
      ∀ d, tryTag exif "DateTimeDigitized" = some d →
        get_date_taken fsDate exif video = some d) := by
  refine ⟨?_, ?_, ?_⟩
  · intro d hd
    have hne := tryTag_isEmpty_false exif _ _ hd
    simp [get_date_taken, hne, orO, hd]
  · intro h1 d hd
    have hne := tryTag_isEmpty_false exif _ _ hd
    simp [get_date_taken, hne, orO, h1, hd]
  · intro h1 h2 d hd
    have hne := tryTag_isEmpty_false exif _ _ hd
    simp [get_date_taken, hne, orO, h1, h2, hd]

/-- Witness for C2 (amended) at a concrete tag map holding only the
digitized tag. -/
theorem c2_date_order_witness :
    get_date_taken none [("DateTimeDigitized", TagVal.str "2002:02:02 00:00:00")] none =
      some ⟨2002, 2, 2, 0, 0, 0⟩ :=
  (c2_date_order [("DateTimeDigitized", TagVal.str "2002:02:02 00:00:00")] none none).2.2
    (by decide) (by decide) _ (by decide)

/-! ### C3 -/

/-- The pipeline body routes a file with empty tag map, no video
metadata and no filesystem creation date to the `Unknown` placeholder
directories, keeping the bare filename when it is free there. -/
theorem processBody_unknowns (env : Env) (f : PFile) (st : OrgState)
    (hexif : f.exif = []) (hvid : f.videoMeta = none) (hfs : f.fsDate = none)
    (hfree : ("Unknown_Year", "Unknown_Month", "Unknown_Location", PFile.name f) ∉ st.existing) :
    (processBody env f st).2.1 =
      some ("Unknown_Year", "Unknown_Month", "Unknown_Location", PFile.name f) := by
  have he : effectiveExif f = [] := by simp [effectiveExif, hexif]
  have hv : effectiveVideo env f = none := by
    cases henv : env.hachoir <;> simp [effectiveVideo, get_video_metadata, hvid, henv]
  have hd : get_date_taken f.fsDate (effectiveExif f) (effectiveVideo env f) = none := by
    simp [he, hv, get_date_taken, videoDate, hfs]
  have hg : effectiveGps f = none := by simp [effectiveGps, he]
  simp [processBody, hd, hg, pickDest, hfree]

/-- C3 counterexample: a file with no embedded date and no parseable
tags whose filesystem creation timestamp is available is routed to that
directories of that date (here `2020/05-May`), not to
`Unknown_Year/Unknown_Month`. -/
theorem c3_counterexample :
    (process_file ⟨fun _ => "h", fun _ => GeoResult.err, false⟩ false
        ⟨"a", ".jpg", [], true, [], none, some ⟨2020, 5, 1, 0, 0, 0⟩⟩ initState).2.1 =
      some ("2020", "05-May", "Unknown_Location", "a.jpg") ∧
    ("2020" : String) ≠ "Unknown_Year" := by
  refine ⟨by decide, by decide⟩

/-- C3 (amended): a file with no embedded metadata (empty tag map, no
video metadata) and whose filesystem-creation-date lookup also fails is
routed to `Unknown_Year/Unknown_Month/Unknown_Location/<name>` (assuming
the file is not skipped as a duplicate and its bare name is free in the
destination directory). -/
theorem c3_missing_metadata (env : Env) (move : Bool) (f : PFile) (st : OrgState)
    (hexif : f.exif = []) (hvid : f.videoMeta = none) (hfs : f.fsDate = none)
    (hnodup : ∀ h, calculate_file_hash env f = some h → h ∉ st.processed)
    (hfree : ("Unknown_Year", "Unknown_Month", "Unknown_Location", PFile.name f) ∉ st.existing) :
    (process_file env move f st).2.1 =
      some ("Unknown_Year", "Unknown_Month", "Unknown_Location", PFile.name f) := by
  cases hh : calculate_file_hash env f with
  | none =>
    simp only [process_file, hh]
    exact processBody_unknowns env f st hexif hvid hfs hfree
  | some h =>
    have hmem := hnodup h hh
    by_cases he : h = ""
    · simp only [process_file, hh, he, ne_eq, not_true_eq_false, if_false]
      exact processBody_unknowns env f st hexif hvid hfs hfree
    · simp only [process_file, hh, ne_eq, he, not_false_eq_true, if_true, hmem, if_false]
      exact processBody_unknowns env f ⟨h :: st.processed, st.geo, st.existing⟩ hexif hvid hfs hfree

/-- Witness for C3 (amended) at a concrete metadata-free file. -/
theorem c3_missing_metadata_witness :
    (process_file ⟨fun _ => "h", fun _ => GeoResult.err, false⟩ false
        ⟨"a", ".jpg", [], true, [], none, none⟩ initState).2.1 =
      some ("Unknown_Year", "Unknown_Month", "Unknown_Location", "a.jpg") :=
  c3_missing_metadata ⟨fun _ => "h", fun _ => GeoResult.err, false⟩ false
    ⟨"a", ".jpg", [], true, [], none, none⟩ initState rfl rfl rfl
    (by intro h hh; simp [initState]) (by simp [initState])

/-! ### C4 and C8 -/

/-- Evaluation of `get_gps_info` on a GPS sub-map holding truthy
latitude and longitude data: each component is converted with
`convert_to_degrees` and negated exactly when the hemisphere reference
equals S (latitude) or W (longitude). -/
theorem get_gps_info_eval (g : GpsInfo) (latv lonv : PyVal)
    (hlat : dictGet g "GPSLatitude" = some latv) (hlatt : latv.truthy = true)
    (hlon : dictGet g "GPSLongitude" = some lonv) (hlont : lonv.truthy = true)
    (hne : g ≠ []) :
    get_gps_info [("GPSInfo", TagVal.gps g)] =
      some
        ((if ((dictGet g "GPSLatitudeRef").getD (PyVal.str "N")).isStrEq "S" then
            -convert_to_degrees latv else convert_to_degrees latv),
         (if ((dictGet g "GPSLongitudeRef").getD (PyVal.str "E")).isStrEq "W" then
            -convert_to_degrees lonv else convert_to_degrees lonv)) := by
  have hie : g.isEmpty = false := by
    cases g with
    | nil => exact absurd rfl hne
    | cons a l => rfl
  simp +decide [get_gps_info, dictGet, hie, hlat, hlatt, hlon, hlont]

/-- C4: GPS decoding converts a (degrees, minutes, seconds) triplet to
`d + m/60 + s/3600` and a single decimal to itself, and applies the
hemisphere references S / W (defaults N / E) by negating the
magnitude, returning a coordinate whenever both components are present
and truthy. -/
theorem c4_gps_decode :
    (∀ (a b c : ℚ) (rest : List PyVal),
      convert_to_degrees (PyVal.seq (PyVal.num a :: PyVal.num b :: PyVal.num c :: rest)) =
        a + b / 60 + c / 3600) ∧
    (∀ a : ℚ, convert_to_degrees (PyVal.num a) = a) ∧
    (∀ (g : GpsInfo) (latv lonv : PyVal),
      dictGet g "GPSLatitude" = some latv → latv.truthy = true →
      dictGet g "GPSLongitude" = some lonv → lonv.truthy = true → g ≠ [] →
      get_gps_info [("GPSInfo", TagVal.gps g)] =
        some
          ((if ((dictGet g "GPSLatitudeRef").getD (PyVal.str "N")).isStrEq "S" then
              -convert_to_degrees latv else convert_to_degrees latv),
           (if ((dictGet g "GPSLongitudeRef").getD (PyVal.str "E")).isStrEq "W" then
              -convert_to_degrees lonv else convert_to_degrees lonv))) := by
  refine ⟨?_, ?_, fun g latv lonv h1 h2 h3 h4 h5 => get_gps_info_eval g latv lonv h1 h2 h3 h4 h5⟩
  · intro a b c rest
    simp [convert_to_degrees, pyFloat]
  · intro a
    simp [convert_to_degrees, pyFloat]

/-- Witness for C4: latitude (10, 0, 0) with reference S decodes to
minus 10 degrees; longitude (20, 0, 0) with reference E decodes to
plus 20 degrees. -/
theorem c4_gps_decode_witness :
    get_gps_info
        [("GPSInfo", TagVal.gps
          [("GPSLatitude", PyVal.seq [PyVal.num 10, PyVal.num 0, PyVal.num 0]),
           ("GPSLatitudeRef", PyVal.str "S"),
           ("GPSLongitude", PyVal.seq [PyVal.num 20, PyVal.num 0, PyVal.num 0]),
           ("GPSLongitudeRef", PyVal.str "E")])] = some (-10, 20) := by
  have h := c4_gps_decode.2.2
    [("GPSLatitude", PyVal.seq [PyVal.num 10, PyVal.num 0, PyVal.num 0]),
     ("GPSLatitudeRef", PyVal.str "S"),
     ("GPSLongitude", PyVal.seq [PyVal.num 20, PyVal.num 0, PyVal.num 0]),
     ("GPSLongitudeRef", PyVal.str "E")] _ _ rfl rfl rfl rfl (by simp)
  rw [h]
  simp +decide [dictGet, PyVal.isStrEq, convert_to_degrees, pyFloat]

/-- C8: any conversion fault (`float()` raising on a scalar, a sequence
of fewer than three members, or a non-numeric member among the first
three) degrades the affected component to `0.0` degrees, and the overall
decode still returns a coordinate whenever both components are present
and truthy. -/
theorem c8_fault_degradation :
    (convert_to_degrees PyVal.badNum = 0) ∧
    (∀ xs : List PyVal, xs.length < 3 → convert_to_degrees (PyVal.seq xs) = 0) ∧
    (∀ xs : List PyVal, 3 ≤ xs.length →
      (pyFloat (xs.getD 0 PyVal.badNum) = none ∨ pyFloat (xs.getD 1 PyVal.badNum) = none ∨
        pyFloat (xs.getD 2 PyVal.badNum) = none) →
      convert_to_degrees (PyVal.seq xs) = 0) ∧
    (∀ (g : GpsInfo) (latv lonv : PyVal),
      dictGet g "GPSLatitude" = some latv → latv.truthy = true →
      dictGet g "GPSLongitude" = some lonv → lonv.truthy = true → g ≠ [] →
      (get_gps_info [("GPSInfo", TagVal.gps g)]).isSome = true) := by
  refine ⟨rfl, ?_, ?_, ?_⟩
  · intro xs hlen
    simp [convert_to_degrees, Nat.not_le.mpr hlen]
  · intro xs hlen hbad
    simp only [convert_to_degrees, if_pos hlen]
    split
    · rename_i d m s hd hm hs
      rcases hbad with hb | hb | hb <;> simp_all
    · rfl
  · intro g latv lonv h1 h2 h3 h4 h5
    rw [get_gps_info_eval g latv lonv h1 h2 h3 h4 h5]
    rfl

/-- Witness for C8: a triplet with a non-numeric middle member converts
to `0.0`, and a GPS sub-map whose latitude is such a faulty triplet still
decodes to a coordinate. -/
theorem c8_fault_degradation_witness :
    convert_to_degrees (PyVal.seq [PyVal.num 1, PyVal.badNum, PyVal.num 0]) = 0 ∧
    (get_gps_info
        [("GPSInfo", TagVal.gps
          [("GPSLatitude", PyVal.seq [PyVal.num 1, PyVal.badNum, PyVal.num 0]),
           ("GPSLongitude", PyVal.seq [PyVal.num 20, PyVal.num 0, PyVal.num 0])])]).isSome =
      true :=
  ⟨c8_fault_degradation.2.2.1 [PyVal.num 1, PyVal.badNum, PyVal.num 0] (by simp)
      (by simp [pyFloat]),
   c8_fault_degradation.2.2.2
      [("GPSLatitude", PyVal.seq [PyVal.num 1, PyVal.badNum, PyVal.num 0]),
       ("GPSLongitude", PyVal.seq [PyVal.num 20, PyVal.num 0, PyVal.num 0])] _ _
      rfl rfl rfl rfl (by simp)⟩

/-! ### C10 -/

/-- C10: a coordinate with a zero latitude or longitude component is
treated as absent by numeric truthiness: `get_location_name` returns
`"Unknown_Location"` immediately with its state untouched (no cache
entry, no external request), and the pipeline body likewise routes such
a file to `"Unknown_Location"` without touching the geocode state. -/
theorem c10_zero_coordinate :
    (∀ (geocoder : ℚ × ℚ → GeoResult) (lat lon : ℚ) (st : GeoState), lat = 0 ∨ lon = 0 →
      get_location_name geocoder lat lon st = ("Unknown_Location", st)) ∧
    (∀ (env : Env) (f : PFile) (st : OrgState) (c : ℚ × ℚ),
      effectiveGps f = some c → c.1 = 0 ∨ c.2 = 0 →
      (∃ y m n, (processBody env f st).2.1 = some (y, m, "Unknown_Location", n)) ∧
      (processBody env f st).2.2.geo = st.geo) := by
  constructor
  · intro geocoder lat lon st h
    simp [get_location_name, h]
  · intro env f st c hg hc
    have hcond : ¬(¬c.1 = 0 ∧ ¬c.2 = 0) := by tauto
    constructor
    · simp only [processBody, hg]
      rw [if_neg hcond]
      exact ⟨_, _, _, rfl⟩
    · simp only [processBody, hg]
      rw [if_neg hcond]

/-- Witness for C10: a file whose EXIF GPS latitude decodes to `0.0`
(equator) is routed to `"Unknown_Location"` with the geocode state
unchanged. -/
theorem c10_zero_coordinate_witness :
    (∃ y m n,
      (processBody ⟨fun _ => "h", fun _ => GeoResult.err, false⟩
          ⟨"b", ".jpg", [], true,
            [("GPSInfo", TagVal.gps
              [("GPSLatitude", PyVal.seq [PyVal.num 0, PyVal.num 0, PyVal.num 0]),
               ("GPSLongitude", PyVal.seq [PyVal.num 20, PyVal.num 0, PyVal.num 0])])],
            none, none⟩ initState).2.1 = some (y, m, "Unknown_Location", n)) ∧
    (processBody ⟨fun _ => "h", fun _ => GeoResult.err, false⟩
        ⟨"b", ".jpg", [], true,
          [("GPSInfo", TagVal.gps
            [("GPSLatitude", PyVal.seq [PyVal.num 0, PyVal.num 0, PyVal.num 0]),
             ("GPSLongitude", PyVal.seq [PyVal.num 20, PyVal.num 0, PyVal.num 0])])],
          none, none⟩ initState).2.2.geo = initState.geo :=
  c10_zero_coordinate.2 ⟨fun _ => "h", fun _ => GeoResult.err, false⟩
    ⟨"b", ".jpg", [], true,
      [("GPSInfo", TagVal.gps
        [("GPSLatitude", PyVal.seq [PyVal.num 0, PyVal.num 0, PyVal.num 0]),
         ("GPSLongitude", PyVal.seq [PyVal.num 20, PyVal.num 0, PyVal.num 0])])],
      none, none⟩ initState (0, 20)
    (by
      show get_gps_info
        [("GPSInfo", TagVal.gps
          [("GPSLatitude", PyVal.seq [PyVal.num 0, PyVal.num 0, PyVal.num 0]),
           ("GPSLongitude", PyVal.seq [PyVal.num 20, PyVal.num 0, PyVal.num 0])])] =
        some (0, 20)
      simp +decide [get_gps_info, dictGet, PyVal.truthy, PyVal.isStrEq, convert_to_degrees,
        pyFloat])
    (Or.inl rfl)

/-! ### C7 -/

/-- What one metadata line contributes to the scan: the part after the
first colon-space separator of a line containing one of the scanned
substrings, and
nothing otherwise. -/
def lineExtract (line : String) : Option String :=
  if containsStr line "Creation date" || containsStr line "Date" then splitValue line
  else none

/-- The last element of a list, if any. -/
def lastSome {α : Type} : List α → Option α
  | [] => none
  | a :: rest =>
    match lastSome rest with
    | some w => some w
    | none => some a

/-- The last element of a nonempty list exists. -/
theorem lastSome_cons_isSome {α : Type} (a : α) (t : List α) :
    (lastSome (a :: t)).isSome = true := by
  induction t generalizing a with
  | nil => rfl
  | cons b tt ih =>
    show (match lastSome (b :: tt) with
      | some w => some w
      | none => some a).isSome = true
    rcases hb : lastSome (b :: tt) with _ | w
    · rfl
    · rfl

/-- Peeling one element off `lastSome`. -/
theorem lastSome_cons {α : Type} (a : α) (t : List α) :
    lastSome (a :: t) =
      match lastSome t with
      | some w => some w
      | none => some a := rfl

/-- The accumulator-threading scan of the metadata lines computes the
contribution of the last matching splittable line, with the accumulator
as fallback. -/
theorem scanDateLines_foldl (ls : List String) :
    ∀ acc : Option String,
      List.foldl
        (fun acc line =>
          if containsStr line "Creation date" || containsStr line "Date" then
            match splitValue line with
            | some v => some v
            | none => acc
          else acc)
        acc ls =
      match lastSome (ls.filterMap lineExtract) with
      | some v => some v
      | none => acc := by
  induction ls with
  | nil => intro acc; rfl
  | cons l ls ih =>
    intro acc
    rw [List.foldl_cons, ih, List.filterMap_cons]
    rcases hx : lineExtract l with _ | v
    · have hstep :
          (if containsStr l "Creation date" || containsStr l "Date" then
            match splitValue l with
            | some v => some v
            | none => acc
          else acc) = acc := by
        unfold lineExtract at hx
        split at hx
        · rename_i hcond
          rw [if_pos hcond, hx]
        · rename_i hcond
          rw [if_neg hcond]
      rw [hstep]
    · have hcond : (containsStr l "Creation date" || containsStr l "Date") = true := by
        by_contra hc
        unfold lineExtract at hx
        rw [if_neg hc] at hx
        exact Option.noConfusion hx
      have hsplit : splitValue l = some v := by
        unfold lineExtract at hx
        rwa [if_pos hcond] at hx
      rw [if_pos hcond, hsplit]
      rcases hl : lastSome (List.filterMap lineExtract ls) with _ | w <;>
        simp [lastSome_cons, hl]

/-- C7 counterexample: with metadata lines `"Date: A"` then
`"Creation date: B"`, the captured creation-date string is `"B"`, the
value of the last matching line, not of the first one. -/
theorem c7_counterexample :
    get_video_metadata true (some ["Date: A", "Creation date: B"]) = some "B" ∧
    ("B" : String) ≠ "A" := by
  refine ⟨by decide, by decide⟩

/-- C7 (amended): when video metadata extraction is available, the raw
creation-date string handed to date resolution is the value of the
*last* line containing one of the scanned substrings that splits on the
colon-space separator (the loop overwrites the dict entry on every
match). -/
theorem c7_last_match (lines : List String) :
    get_video_metadata true (some lines) = lastSome (lines.filterMap lineExtract) := by
  show scanDateLines lines = lastSome (lines.filterMap lineExtract)
  rw [scanDateLines, scanDateLines_foldl lines none]
  rcases hl : lastSome (lines.filterMap lineExtract) with _ | w
  · rfl
  · rfl

/-! ### C5 -/

/-- Invariant tying the request log to the cache: every rounded key has
been requested at most once, and a requested key is cached. -/
def atMostOnce (st : GeoState) : Prop :=
  ∀ k, countKey st.extCalls k ≤ 1 ∧
    (1 ≤ countKey st.extCalls k → ∃ v, cacheLookup st.cache k = some v)

/-- Appending one request to the log adds one to the count of its
rounded key and leaves the other counts unchanged. -/
theorem countKey_append_single (calls : List (ℚ × ℚ)) (lat lon : ℚ) (k : ℚ × ℚ) :
    countKey (calls ++ [(lat, lon)]) k =
      countKey calls k + (if cacheKey lat lon = k then 1 else 0) := by
  simp [countKey, List.countP_append, List.countP_cons]

/-- Extending the state with one fresh request and its cache entry
preserves the invariant. -/
theorem atMostOnce_extend (st : GeoState) (lat lon : ℚ) (v : String) (h : atMostOnce st)
    (hmiss : cacheLookup st.cache (cacheKey lat lon) = none) :
    atMostOnce ⟨(cacheKey lat lon, v) :: st.cache, st.extCalls ++ [(lat, lon)]⟩ := by
  intro k
  have hcnt := countKey_append_single st.extCalls lat lon k
  by_cases hk : cacheKey lat lon = k
  · subst hk
    have h0 : countKey st.extCalls (cacheKey lat lon) = 0 := by
      by_contra hne
      obtain ⟨w, hw⟩ := (h (cacheKey lat lon)).2 (by omega)
      rw [hmiss] at hw
      exact Option.noConfusion hw
    constructor
    · rw [hcnt, h0]
      simp
    · intro _
      exact ⟨v, by simp [cacheLookup]⟩
  · constructor
    · simp only [hcnt, if_neg hk, Nat.add_zero]
      exact (h k).1
    · intro h1
      rw [hcnt, if_neg hk, Nat.add_zero] at h1
      obtain ⟨w, hw⟩ := (h k).2 h1
      exact ⟨w, by simp [cacheLookup, hk, hw]⟩

/-- A lookup of a falsy coordinate returns the sentinel and leaves the
state untouched. -/
theorem gln_zero (geocoder : ℚ × ℚ → GeoResult) (lat lon : ℚ) (st : GeoState)
    (h0 : lat = 0 ∨ lon = 0) :
    get_location_name geocoder lat lon st = ("Unknown_Location", st) := by
  simp [get_location_name, h0]

/-- A cache hit returns the cached name and leaves the state
untouched. -/
theorem gln_hit (geocoder : ℚ × ℚ → GeoResult) (lat lon : ℚ) (st : GeoState) (v : String)
    (h0 : ¬(lat = 0 ∨ lon = 0))
    (hhit : cacheLookup st.cache (cacheKey lat lon) = some v) :
    get_location_name geocoder lat lon st = (v, st) := by
  simp only [get_location_name]
  rw [if_neg h0, hhit]

/-- A cache miss on a truthy coordinate issues one external request and
caches some name under the rounded key. -/
theorem gln_miss (geocoder : ℚ × ℚ → GeoResult) (lat lon : ℚ) (st : GeoState)
    (h0 : ¬(lat = 0 ∨ lon = 0))
    (hmiss : cacheLookup st.cache (cacheKey lat lon) = none) :
    ∃ v, get_location_name geocoder lat lon st =
      (v, ⟨(cacheKey lat lon, v) :: st.cache, st.extCalls ++ [(lat, lon)]⟩) := by
  simp only [get_location_name]
  rw [if_neg h0, hmiss]
  cases geocoder (lat, lon) with
  | ok addr => exact ⟨_, rfl⟩
  | okNone => exact ⟨_, rfl⟩
  | err => exact ⟨_, rfl⟩

/-- One location lookup preserves the request/cache invariant. -/
theorem get_location_name_atMostOnce (geocoder : ℚ × ℚ → GeoResult) (lat lon : ℚ)
    (st : GeoState) (h : atMostOnce st) :
    atMostOnce (get_location_name geocoder lat lon st).2 := by
  by_cases h0 : lat = 0 ∨ lon = 0
  · rw [gln_zero geocoder lat lon st h0]
    exact h
  · rcases hcl : cacheLookup st.cache (cacheKey lat lon) with _ | name
    · obtain ⟨v, hv⟩ := gln_miss geocoder lat lon st h0 hcl
      rw [hv]
      exact atMostOnce_extend st lat lon v h hcl
    · rw [gln_hit geocoder lat lon st name h0 hcl]
      exact h

/-- Any sequence of lookups preserves the invariant. -/
theorem runLookups_atMostOnce (geocoder : ℚ × ℚ → GeoResult) (reqs : List (ℚ × ℚ))
    (st : GeoState) (h : atMostOnce st) :
    atMostOnce (runLookups geocoder reqs st) := by
  induction reqs generalizing st with
  | nil => exact h
  | cons c rest ih =>
    exact ih _ (get_location_name_atMostOnce geocoder c.1 c.2 st h)

/-- Two nonzero coordinates with the same rounded key, looked up from
the initial state, issue exactly one external request. -/
theorem runLookups_pair_once (geocoder : ℚ × ℚ → GeoResult) (c1 c2 : ℚ × ℚ)
    (h11 : ¬c1.1 = 0) (h12 : ¬c1.2 = 0) (h21 : ¬c2.1 = 0) (h22 : ¬c2.2 = 0)
    (hkey : cacheKey c1.1 c1.2 = cacheKey c2.1 c2.2) :
    (runLookups geocoder [c1, c2] initGeo).extCalls.length = 1 := by
  have hz1 : ¬(c1.1 = 0 ∨ c1.2 = 0) := by tauto
  have hz2 : ¬(c2.1 = 0 ∨ c2.2 = 0) := by tauto
  obtain ⟨v, hv⟩ := gln_miss geocoder c1.1 c1.2 initGeo hz1 rfl
  have hhit : cacheLookup ((cacheKey c1.1 c1.2, v) :: initGeo.cache) (cacheKey c2.1 c2.2)
      = some v := by
    simp [cacheLookup, hkey]
  show (runLookups geocoder [c2] (get_location_name geocoder c1.1 c1.2 initGeo).2).extCalls.length
    = 1
  rw [hv]
  show (get_location_name geocoder c2.1 c2.2
      ⟨(cacheKey c1.1 c1.2, v) :: initGeo.cache, initGeo.extCalls ++ [(c1.1, c1.2)]⟩).2.extCalls.length = 1
  rw [gln_hit geocoder c2.1 c2.2
    ⟨(cacheKey c1.1 c1.2, v) :: initGeo.cache, initGeo.extCalls ++ [(c1.1, c1.2)]⟩ v hz2 hhit]
  simp [initGeo]

/-- C5: within one run, each rounded 3-decimal coordinate key triggers
at most one external reverse-geocoding request (first conjunct: the
request log of any lookup sequence from the initial state holds at most
one request per rounded key), and two nonzero coordinates rounding to
the same key trigger exactly one external request (second conjunct). -/
theorem c5_cache_single_lookup (geocoder : ℚ × ℚ → GeoResult) :
    (∀ (reqs : List (ℚ × ℚ)) (k : ℚ × ℚ),
      countKey (runLookups geocoder reqs initGeo).extCalls k ≤ 1) ∧
    (∀ c1 c2 : ℚ × ℚ, c1.1 ≠ 0 → c1.2 ≠ 0 → c2.1 ≠ 0 → c2.2 ≠ 0 →
      cacheKey c1.1 c1.2 = cacheKey c2.1 c2.2 →
      (runLookups geocoder [c1, c2] initGeo).extCalls.length = 1) := by
  constructor
  · intro reqs k
    have hinit : atMostOnce initGeo := by
      intro k
      refine ⟨by simp [countKey, initGeo], ?_⟩
      intro h1
      simp [countKey, initGeo] at h1
    exact (runLookups_atMostOnce geocoder reqs initGeo hinit k).1
  · intro c1 c2 h11 h12 h21 h22 hkey
    exact runLookups_pair_once geocoder c1 c2 h11 h12 h21 h22 hkey

/-- Witness for C5: the coordinates `(10, 20)` and `(10.0005, 20)` round
to the same 3-decimal key (round-half-even sends `10000.5` to `10000`),
so looking both up issues exactly one external request. -/
theorem c5_cache_single_lookup_witness :
    (runLookups (fun _ => GeoResult.err) [(10, 20), (20001 / 2000, 20)] initGeo).extCalls.length
      = 1 :=
  (c5_cache_single_lookup (fun _ => GeoResult.err)).2 (10, 20) (20001 / 2000, 20)
    (by norm_num) (by norm_num) (by norm_num) (by norm_num)
    (by norm_num [cacheKey, round3, roundHalfEven])

/-! ### C6 -/

/-- `digitVal` inverts `Nat.digitChar` on single digits. -/
theorem digitVal_digitChar : ∀ n, n < 10 → digitVal (Nat.digitChar n) = n := by decide

/-- `runVal` peels a trailing digit. -/
theorem runVal_append_digit (xs : List Char) (c : Char) :
    runVal (xs ++ [c]) = runVal xs * 10 + digitVal c := by
  simp [runVal, List.foldl_append]

/-- `runVal` inverts the decimal rendering (given enough fuel). -/
theorem runVal_natDecAux : ∀ fuel n : Nat, n < 10 ^ fuel → runVal (natDecAux fuel n) = n := by
  intro fuel
  induction fuel with
  | zero =>
    intro n hn
    have : n = 0 := by simpa using Nat.lt_one_iff.mp hn
    subst this
    rfl
  | succ fuel ih =>
    intro n hn
    by_cases h : n < 10
    · simp [natDecAux, h, runVal, digitVal_digitChar n h]
    · have hd : n / 10 < 10 ^ fuel := by
        apply Nat.div_lt_of_lt_mul
        rw [pow_succ] at hn
        omega
      simp only [natDecAux, if_neg h]
      rw [runVal_append_digit, ih (n / 10) hd,
        digitVal_digitChar (n % 10) (Nat.mod_lt _ (by norm_num))]
      omega

/-- Every natural is below `10 ^ (n + 1)`. -/
theorem lt_ten_pow_succ (n : Nat) : n < 10 ^ (n + 1) :=
  lt_of_lt_of_le (Nat.lt_pow_self (by norm_num) n)
    (Nat.pow_le_pow_right (by norm_num) (Nat.le_succ n))

/-- The decimal renderings of two distinct naturals differ (as character
lists). -/
theorem natDec_data_inj {a b : Nat} (h : (natDec a).data = (natDec b).data) : a = b := by
  have ha : runVal (natDecAux (a + 1) a) = a := runVal_natDecAux _ _ (lt_ten_pow_succ a)
  have hb : runVal (natDecAux (b + 1) b) = b := runVal_natDecAux _ _ (lt_ten_pow_succ b)
  have hd : natDecAux (a + 1) a = natDecAux (b + 1) b := h
  rw [hd, hb] at ha
  exact ha.symm

/-- Concatenation of strings concatenates their character lists. -/
theorem data_append_eq (s t : String) : (s ++ t).data = s.data ++ t.data := by
  cases s
  cases t
  rfl

/-- The collision-candidate naming is injective in the counter. -/
theorem collName_injective (stem suffix : String) :
    Function.Injective (collName stem suffix) := by
  intro a b h
  have hd := congrArg String.data h
  simp only [collName, data_append_eq, List.append_assoc, List.append_cancel_left_eq] at hd
  exact natDec_data_inj (List.append_cancel_right hd)

/-- Pigeonhole: among `L.length + 1` consecutive collision candidates at
least one is not in `L`. -/
theorem exists_free_slot (L : List String) (stem suffix : String) (k : Nat) :
    ∃ i, i < L.length + 1 ∧ collName stem suffix (k + i) ∉ L := by
  by_contra hcon
  push_neg at hcon
  have hsub : ((List.range (L.length + 1)).map (fun i => collName stem suffix (k + i))) ⊆ L := by
    intro x hx
    simp only [List.mem_map, List.mem_range] at hx
    obtain ⟨i, hi, rfl⟩ := hx
    exact hcon i hi
  have hnd : ((List.range (L.length + 1)).map (fun i => collName stem suffix (k + i))).Nodup := by
    refine List.Nodup.map ?_ (List.nodup_range _)
    intro a b hab
    have := collName_injective stem suffix hab
    omega
  have hlen := List.Subperm.length_le (List.subperm_of_subset hnd hsub)
  simp at hlen

/-- The collision loop returns the first free candidate whenever a free
candidate exists within its fuel window. -/
theorem destLoop_first_free (L : List String) (stem suffix : String) :
    ∀ fuel k, (∃ i, i < fuel ∧ collName stem suffix (k + i) ∉ L) →
      destLoop (fun s => decide (s ∈ L)) stem suffix fuel k ∉ L ∧
      ∃ i, i < fuel ∧
        destLoop (fun s => decide (s ∈ L)) stem suffix fuel k = collName stem suffix (k + i) ∧
        ∀ j, j < i → collName stem suffix (k + j) ∈ L := by
  intro fuel
  induction fuel with
  | zero =>
    intro k h
    obtain ⟨i, hi, -⟩ := h
    omega
  | succ fuel ih =>
    intro k h
    by_cases hc : collName stem suffix k ∈ L
    · obtain ⟨i, hi, hfree⟩ := h
      have hine : i ≠ 0 := by
        rintro rfl
        rw [Nat.add_zero] at hfree
        exact hfree hc
      have hrec := ih (k + 1)
        ⟨i - 1, by omega, by
          have heq : k + 1 + (i - 1) = k + i := by omega
          rw [heq]
          exact hfree⟩
      have hstep : destLoop (fun s => decide (s ∈ L)) stem suffix (fuel + 1) k =
          destLoop (fun s => decide (s ∈ L)) stem suffix fuel (k + 1) := by
        simp [destLoop, hc]
      rw [hstep]
      obtain ⟨hfree2, i2, hi2, heq2, hall2⟩ := hrec
      refine ⟨hfree2, i2 + 1, by omega, ?_, ?_⟩
      · rw [heq2]
        have : k + (i2 + 1) = k + 1 + i2 := by omega
        rw [this]
      · intro j hj
        cases j with
        | zero =>
          rw [Nat.add_zero]
          exact hc
        | succ j2 =>
          have : k + (j2 + 1) = k + 1 + j2 := by omega
          rw [this]
          exact hall2 j2 (by omega)
    · have hstep : destLoop (fun s => decide (s ∈ L)) stem suffix (fuel + 1) k =
          collName stem suffix k := by
        simp [destLoop, hc]
      rw [hstep]
      exact ⟨hc, 0, by omega, by rw [Nat.add_zero], fun j hj => absurd hj (by omega)⟩

/-- C6: against any destination-directory state `L`, the chosen target
filename never collides with an existing file; it is the bare source
filename when that is free, and otherwise the first free
`stem_counter.suffix` candidate with the counter counting up from 1
(fuel `L.length + 1` always suffices for the collision loop). -/
theorem c6_collision_suffix (L : List String) (stem suffix : String) :
    pickDest (fun s => decide (s ∈ L)) (stem ++ suffix) stem suffix (L.length + 1) ∉ L ∧
    (stem ++ suffix ∉ L →
      pickDest (fun s => decide (s ∈ L)) (stem ++ suffix) stem suffix (L.length + 1) =
        stem ++ suffix) ∧
    (stem ++ suffix ∈ L →
      ∃ i, pickDest (fun s => decide (s ∈ L)) (stem ++ suffix) stem suffix (L.length + 1) =
          collName stem suffix (1 + i) ∧
        ∀ j, j < i → collName stem suffix (1 + j) ∈ L) := by
  by_cases hn : stem ++ suffix ∈ L
  · have hpick : pickDest (fun s => decide (s ∈ L)) (stem ++ suffix) stem suffix (L.length + 1) =
        destLoop (fun s => decide (s ∈ L)) stem suffix (L.length + 1) 1 := by
      simp [pickDest, hn]
    obtain ⟨hfree, i, hi, heq, hall⟩ :=
      destLoop_first_free L stem suffix (L.length + 1) 1 (exists_free_slot L stem suffix 1)
    rw [hpick]
    exact ⟨hfree, fun hcon => absurd hn hcon, fun _ => ⟨i, heq, hall⟩⟩
  · have hpick : pickDest (fun s => decide (s ∈ L)) (stem ++ suffix) stem suffix (L.length + 1) =
        stem ++ suffix := by
      simp [pickDest, hn]
    rw [hpick]
    exact ⟨hn, fun _ => rfl, fun hcon => absurd hcon hn⟩

/-- Witness for C6: with `img.jpg` and `img_1.jpg` already present, the
loop picks `img_2.jpg`, which is free. -/
theorem c6_collision_suffix_witness :
    pickDest (fun s => decide (s ∈ ["img.jpg", "img_1.jpg"])) ("img" ++ ".jpg") "img" ".jpg"
        (["img.jpg", "img_1.jpg"].length + 1) ∉ ["img.jpg", "img_1.jpg"] ∧
    pickDest (fun s => decide (s ∈ ["img.jpg", "img_1.jpg"])) ("img" ++ ".jpg") "img" ".jpg"
        (["img.jpg", "img_1.jpg"].length + 1) = "img_2.jpg" :=
  ⟨(c6_collision_suffix ["img.jpg", "img_1.jpg"] "img" ".jpg").1, by decide⟩

/-! ### C1 -/

/-- C1: once a digest is in the run-scoped seen set, any file hashing to
it is skipped entirely — `process_file` returns `False` with no
destination written and the state untouched (first conjunct) — and
consequently processing two byte-identical readable files from a fresh
run writes exactly one output file (second conjunct). -/
theorem c1_duplicate_skip :
    (∀ (env : Env) (move : Bool) (f : PFile) (st : OrgState) (h : String),
      calculate_file_hash env f = some h → h ≠ "" → h ∈ st.processed →
      process_file env move f st = (false, none, st)) ∧
    (∀ (env : Env) (move : Bool) (f1 f2 : PFile),
      f1.content = f2.content → f1.readable = true → f2.readable = true →
      env.md5 f1.content ≠ "" →
      (runAll env move [f1, f2] initState).1.length = 1) := by
  constructor
  · intro env move f st h hh hne hmem
    simp [process_file, hh, hne, hmem]
  · intro env move f1 f2 hc h1 h2 hm
    have hh1 : calculate_file_hash env f1 = some (env.md5 f1.content) := by
      simp [calculate_file_hash, h1]
    have hh2 : calculate_file_hash env f2 = some (env.md5 f1.content) := by
      simp [calculate_file_hash, h2, hc]
    have hp1 : process_file env move f1 initState =
        processBody env f1 ⟨[env.md5 f1.content], initGeo, []⟩ := by
      simp [process_file, hh1, hm, initState]
    have hmem2 : env.md5 f1.content ∈
        (processBody env f1 ⟨[env.md5 f1.content], initGeo, []⟩).2.2.processed := by
      rw [processBody_processed]
      exact List.mem_singleton.mpr rfl
    have hp2 : process_file env move f2
        (processBody env f1 ⟨[env.md5 f1.content], initGeo, []⟩).2.2 =
        (false, none, (processBody env f1 ⟨[env.md5 f1.content], initGeo, []⟩).2.2) := by
      simp [process_file, hh2, hm, hmem2]
    obtain ⟨d1, hd1⟩ : ∃ d, (processBody env f1 ⟨[env.md5 f1.content], initGeo, []⟩).2.1 = some d :=
      ⟨_, rfl⟩
    show ((process_file env move f1 initState).2.1.toList ++
      ((process_file env move f2 (process_file env move f1 initState).2.2).2.1.toList ++ [])).length = 1
    rw [hp1, hp2, hd1]
    rfl

/-- Witness for C1: two byte-identical files with different names from a
fresh run yield exactly one output file. -/
theorem c1_duplicate_skip_witness :
    (runAll ⟨fun _ => "h", fun _ => GeoResult.err, false⟩ false
        [⟨"x", ".jpg", [1, 2, 3], true, [], none, none⟩,
         ⟨"y", ".jpg", [1, 2, 3], true, [], none, none⟩] initState).1.length = 1 :=
  c1_duplicate_skip.2 ⟨fun _ => "h", fun _ => GeoResult.err, false⟩ false
    ⟨"x", ".jpg", [1, 2, 3], true, [], none, none⟩
    ⟨"y", ".jpg", [1, 2, 3], true, [], none, none⟩ rfl rfl rfl (by decide)

end PhotoOrganizer
